import Mathlib

/-!
Shallow embedding of the core of the spot-price-monitor application:
the price classifier (`PriceService.calculateLevel`), the hourly price
aggregator (`PriceService.fetchHourlyPrices`), the solar forecast adapter
(`WeatherService.calculateGenerationPotential`), the recommendation engine
(`RecommendationService`) and the notification policy
(`sendContextualNotification` in `main.ts`).

Numbers are modelled as exact rationals (`ℚ`); the JavaScript source uses
IEEE doubles, but every computation the claims touch (comparisons against
literal thresholds, `Math.round`, `Math.ceil((i+1)/N*24)` for `N ≤ 24`)
agrees with exact rational arithmetic on the relevant ranges.
The ambient wall-clock hour (`new Date().getHours()`) is passed explicitly
as a `ch : Nat` argument.
-/

set_option maxRecDepth 4000

namespace SpotMonitor

/-- The `level` field of `priceService.ts` (`'low' | 'medium' | 'high' | 'unknown'`). -/
inductive Level where
  | low
  | medium
  | high
  | unknown
  deriving DecidableEq, Repr

/-- The `generationPotential` field of `weatherService.ts` (`'high' | 'medium' | 'low'`). -/
inductive Potential where
  | high
  | medium
  | low
  deriving DecidableEq, Repr

/-- `RecommendationQuality` from `recommendationService.ts`. -/
inductive Quality where
  | excellent
  | good
  | okay
  | wait
  deriving DecidableEq, Repr

/-- `ActivityType` from `recommendationService.ts`. -/
inductive Activity where
  | ev_charging
  | laundry
  deriving DecidableEq, Repr

/-- Overall status of a `RecommendationState` (`'go' | 'okay' | 'wait'`). -/
inductive Status where
  | go
  | okay
  | wait
  deriving DecidableEq, Repr

/-- `HourlyPrice` interface from `priceService.ts`. -/
structure HourlyPrice where
  hour : Nat
  priceEur : ℚ
  priceCZK : ℚ
  level : Level
  levelNum : Nat
  deriving DecidableEq, Repr

/-- `HourlyPrices` interface from `priceService.ts`. -/
structure HourlyPrices where
  hoursToday : List HourlyPrice
  hoursTomorrow : List HourlyPrice
  deriving DecidableEq, Repr

/-- `PriceData` interface from `priceService.ts`. -/
structure PriceData where
  priceCZK : ℚ
  priceEUR : ℚ
  level : Level
  levelNum : Nat
  deriving DecidableEq, Repr

/-- `SunForecast` interface from `weatherService.ts` (fields the core reads). -/
structure SunForecast where
  currentIrradiance : ℚ
  cloudCover : ℚ
  hourlyIrradiance : List ℚ
  sunrise : String
  sunset : String
  generationPotential : Potential
  isDaytime : Bool
  deriving DecidableEq, Repr

/-- `Recommendation` interface from `recommendationService.ts`. -/
structure Recommendation where
  activity : Activity
  quality : Quality
  reason : String
  icon : String
  windowEnd : Option String := none
  deriving DecidableEq, Repr

/-- The `nextWindow` payload of `RecommendationState`. -/
structure NextWindow where
  time : String
  reason : String
  deriving DecidableEq, Repr

/-- `RecommendationState` interface from `recommendationService.ts`. -/
structure RecommendationState where
  recommendations : List Recommendation
  overallStatus : Status
  statusMessage : String
  nextWindow : Option NextWindow := none
  deriving DecidableEq, Repr

/-- JavaScript `Math.round`: round half toward positive infinity. -/
def jsRound (x : ℚ) : ℤ := ⌊x + 1 / 2⌋

/-- `hour.toString().padStart(2, '0') + ':00'` as used for window times. -/
def fmtHour (h : Nat) : String :=
  (if h < 10 then "0" ++ toString h else toString h) ++ ":00"

/-- JavaScript `array.findIndex(p => p >= price)`: index of the first element
that is `≥ price`, `none` when no element qualifies. -/
def findIndexGe (price : ℚ) : List ℚ → Option Nat
  | [] => none
  | p :: ps => if price ≤ p then some 0 else (findIndexGe price ps).map (· + 1)

/-- Tier derived from the 1–24 rank (`levelNum ≤ 8` low, `≤ 16` medium, else high),
the trailing `if` chain of `PriceService.calculateLevel`. -/
def levelFromRank (levelNum : Nat) : Level :=
  if levelNum ≤ 8 then Level.low
  else if levelNum ≤ 16 then Level.medium
  else Level.high

/-- The `levelNum` computation of `PriceService.calculateLevel`: sort the
day's prices ascending, find the first position whose price is `≥ price`
(`-1`, i.e. `none`, maps to 24), and scale `(position + 1) / N` to a 1–24
rank with `Math.ceil` (exact natural-number ceiling division), clamped at 1. -/
def rankOf (price : ℚ) (allPrices : List ℚ) : Nat :=
  match findIndexGe price (List.insertionSort (· ≤ ·) allPrices) with
  | none => 24
  | some position =>
    max 1 (((position + 1) * 24 + ((List.insertionSort (· ≤ ·) allPrices).length - 1)) /
      (List.insertionSort (· ≤ ·) allPrices).length)

/-- `PriceService.calculateLevel` (part_006 lines 1197–1216): rank within the
sorted day and the tier derived from the rank.  Empty day yields the
`(medium, 12)` sentinel. -/
def calculateLevel (price : ℚ) (allPrices : List ℚ) : Level × Nat :=
  if allPrices.isEmpty then (Level.medium, 12)
  else (levelFromRank (rankOf price allPrices), rankOf price allPrices)

/-- `WeatherService.calculateGenerationPotential` (weatherService.ts lines 153–165). -/
def calculateGenerationPotential (irradiance cloudCover : ℚ) : Potential :=
  if 600 < irradiance ∧ cloudCover < 30 then Potential.high
  else if 200 < irradiance ∨ cloudCover < 60 then Potential.medium
  else Potential.low

/-- `RecommendationService.calculateDailyAverage`: arithmetic mean of the
`priceCZK` values, `0` for an empty day. -/
def calculateDailyAverage (hours : List HourlyPrice) : ℚ :=
  if hours.isEmpty then 0
  else (hours.map (·.priceCZK)).sum / hours.length

/-- `RecommendationService.calculateDailyMin`: `Math.min` over the
`priceCZK` values, `0` for an empty day. -/
def calculateDailyMin (hours : List HourlyPrice) : ℚ :=
  if hours.isEmpty then 0
  else
    match hours.map (·.priceCZK) with
    | [] => 0
    | p :: ps => ps.foldl min p

/-- `Math.max(...list)` over a nonempty list (`0` for `[]`, a case the source
never reaches because it is guarded by a length check). -/
def listMax : List ℚ → ℚ
  | [] => 0
  | p :: ps => ps.foldl max p

/-- `Math.min(...list)`, same convention as `listMax`. -/
def listMin : List ℚ → ℚ
  | [] => 0
  | p :: ps => ps.foldl min p

/-- `RecommendationService.isNearLowestPrice` (part_006 lines 206–210):
`false` when the daily minimum is `0`, else `price ≤ min × (1 + tolerance)`. -/
def isNearLowestPrice (currentPrice dailyMin tolerance : ℚ) : Bool :=
  if dailyMin = 0 then false
  else currentPrice ≤ dailyMin * (1 + tolerance)

/-- `RecommendationService.estimateWindowEnd`: first hour offset whose projected
irradiance is `< 200` W/m² formatted as a wall-clock hour, else the sunset time;
`none` when no sun data is present.  `ch` is the current wall-clock hour. -/
def estimateWindowEnd (sun : Option SunForecast) (ch : Nat) : Option String :=
  match sun with
  | none => none
  | some s =>
    match s.hourlyIrradiance.findIdx? (fun irr => irr < 200) with
    | some i => some (fmtHour ((ch + i) % 24))
    | none => some s.sunset

/-- `RecommendationService.getEvChargingRecommendation` (part_006 lines 212–261). -/
def getEvChargingRecommendation (price : PriceData) (dailyAverage dailyMin : ℚ)
    (sun : Option SunForecast) (ch : Nat) : Option Recommendation :=
  let isNearLowest := isNearLowestPrice price.priceCZK dailyMin (15 / 100)
  let isVeryNearLowest := isNearLowestPrice price.priceCZK dailyMin (5 / 100)
  let isHighSolar : Bool :=
    match sun with
    | some s => s.currentIrradiance > 500
    | none => false
  if isVeryNearLowest && isHighSolar then
    some { activity := Activity.ev_charging, quality := Quality.excellent,
           reason := "Lowest price + sunny", icon := "🚗",
           windowEnd := estimateWindowEnd sun ch }
  else if isNearLowest then
    let pctAboveMin := jsRound ((price.priceCZK / dailyMin - 1) * 100)
    let reason :=
      if pctAboveMin ≤ 2 then "Lowest price of the day"
      else toString pctAboveMin ++ "% above daily low"
    some { activity := Activity.ev_charging, quality := Quality.good,
           reason := reason, icon := "🚗" }
  else if isHighSolar && decide (price.priceCZK < dailyAverage) then
    some { activity := Activity.ev_charging, quality := Quality.good,
           reason := "High solar generation", icon := "🚗",
           windowEnd := estimateWindowEnd sun ch }
  else none

/-- The window of hourly records `RecommendationService.isPriceStable` collects:
today's records with `hour ∈ [ch, ch + hours)`, topped up from the front of
tomorrow's series when fewer than `hours` were found. -/
def stabilityWindow (hp : HourlyPrices) (hours ch : Nat) : List HourlyPrice :=
  let relevantHours := hp.hoursToday.filter (fun h => ch ≤ h.hour ∧ h.hour < ch + hours)
  if relevantHours.length < hours then
    relevantHours ++ hp.hoursTomorrow.take (hours - relevantHours.length)
  else relevantHours

/-- `RecommendationService.isPriceStable` (part_006 lines 311–332): fewer than
two collected records count as stable, otherwise stable iff
`(maxPrice - minPrice) / minPrice < 0.3` over the collected window.  When the
window's minimum price is `0` the JavaScript division produces `NaN` (for
`0/0`) or `Infinity`, so the `< 0.3` comparison is false and the window counts
as unstable; the explicit zero-minimum branch models exactly that. -/
def isPriceStable (hp : HourlyPrices) (hours ch : Nat) : Bool :=
  let relevantHours := stabilityWindow hp hours ch
  if relevantHours.length < 2 then true
  else
    let prices := relevantHours.map (·.priceCZK)
    if listMin prices = 0 then false
    else (listMax prices - listMin prices) / listMin prices < 3 / 10

/-- `RecommendationService.getLaundryRecommendation` (part_006 lines 263–309). -/
def getLaundryRecommendation (price : PriceData) (dailyAverage dailyMin : ℚ)
    (sun : Option SunForecast) (hp : HourlyPrices) (ch : Nat) : Option Recommendation :=
  let isNearLowest := isNearLowestPrice price.priceCZK dailyMin (15 / 100)
  let isVeryNearLowest := isNearLowestPrice price.priceCZK dailyMin (5 / 100)
  let isSunny : Bool :=
    match sun with
    | some s => s.currentIrradiance > 300 && s.isDaytime
    | none => false
  let isStable := isPriceStable hp 2 ch
  if isVeryNearLowest && isSunny && isStable then
    some { activity := Activity.laundry, quality := Quality.excellent,
           reason := "Lowest price + sunny", icon := "🧺" }
  else if isNearLowest && isStable then
    some { activity := Activity.laundry, quality := Quality.good,
           reason := "Near lowest price", icon := "🧺" }
  else if isSunny && decide (price.priceCZK < dailyAverage) && isStable then
    some { activity := Activity.laundry, quality := Quality.good,
           reason := "Good solar", icon := "🧺" }
  else none

/-- `RecommendationService.findNextGoodWindow` (part_006 lines 350–394):
first of today's hours strictly after the current one within 15% of the daily
minimum; else tomorrow's first hour within 5% of tomorrow's own minimum; else
the first future offset with projected irradiance `> 500`. -/
def findNextGoodWindow (hp : HourlyPrices) (sun : Option SunForecast)
    (dailyMin : ℚ) (ch : Nat) : Option NextWindow :=
  match hp.hoursToday.find?
      (fun h => ch < h.hour && isNearLowestPrice h.priceCZK dailyMin (15 / 100)) with
  | some h => some { time := fmtHour h.hour, reason := "Price drops" }
  | none =>
    let tomorrowMin := calculateDailyMin hp.hoursTomorrow
    match (if hp.hoursTomorrow.isEmpty then none
           else hp.hoursTomorrow.find?
             (fun h => isNearLowestPrice h.priceCZK tomorrowMin (5 / 100))) with
    | some h => some { time := fmtHour h.hour ++ " tomorrow", reason := "Lowest price" }
    | none =>
      match sun with
      | none => none
      | some s =>
        match (s.hourlyIrradiance.drop 1).findIdx? (fun irr => irr > 500) with
        | some j => some { time := fmtHour ((ch + (j + 1)) % 24), reason := "Solar peaks" }
        | none => none

/-- `RecommendationService.getRecommendations` (part_006 lines 126–192): the
per-recomputation entry point producing a fresh `RecommendationState`. -/
def getRecommendations (price : Option PriceData) (hourlyPrices : Option HourlyPrices)
    (sun : Option SunForecast) (ch : Nat) : RecommendationState :=
  match price, hourlyPrices with
  | some price, some hp =>
    let dailyAverage := calculateDailyAverage hp.hoursToday
    let dailyMin := calculateDailyMin hp.hoursToday
    let recs := (getEvChargingRecommendation price dailyAverage dailyMin sun ch).toList
        ++ (getLaundryRecommendation price dailyAverage dailyMin sun hp ch).toList
    let overallStatus :=
      if recs.isEmpty then Status.wait
      else if recs.any (fun r => r.quality == Quality.excellent) then Status.go
      else if recs.any (fun r => r.quality == Quality.good) then Status.okay
      else Status.okay
    let statusMessage :=
      if recs.isEmpty then "Wait for better conditions"
      else if recs.any (fun r => r.quality == Quality.excellent) then "Excellent conditions now!"
      else if recs.any (fun r => r.quality == Quality.good) then "Good time for high-power activities"
      else "Acceptable conditions"
    { recommendations := recs, overallStatus := overallStatus,
      statusMessage := statusMessage,
      nextWindow := findNextGoodWindow hp sun dailyMin ch }
  | _, _ =>
    { recommendations := [], overallStatus := Status.wait,
      statusMessage := "Loading price data...", nextWindow := none }

/-- `RecommendationService.getNotificationMessage` (part_006 lines 485–507),
with the latest recommendation state passed explicitly and the wall-clock
`getHoursUntilSunset` result injected as `hoursUntilSunset`. -/
def getNotificationMessage (currentState : Option RecommendationState)
    (sun : Option SunForecast) (hoursUntilSunset : Nat) : Option String :=
  match currentState with
  | none => none
  | some st =>
    if st.recommendations.isEmpty then none
    else
      match st.recommendations.find? (fun r => r.activity == Activity.ev_charging),
            st.recommendations.find? (fun r => r.activity == Activity.laundry) with
      | some ev, la =>
        if ev.quality = Quality.excellent then
          let sunInfo :=
            match sun with
            | some s =>
              if s.isDaytime then " + sunny for " ++ toString hoursUntilSunset ++ "h" else ""
            | none => ""
          some ("🚗☀️ Perfect time to charge! Low price" ++ sunInfo)
        else if ev.quality = Quality.good then
          some ("🚗 Good time to charge EV - " ++ ev.reason)
        else
          match la with
          | some l =>
            if l.quality = Quality.excellent then
              some ("🧺 Great laundry window! " ++ l.reason)
            else none
          | none => none
      | none, some l =>
        if l.quality = Quality.excellent then
          some ("🧺 Great laundry window! " ++ l.reason)
        else none
      | none, none => none

/-- The two user-configurable toggles `settings.notifications.{lowPrice, highPrice}`. -/
structure NotifSettings where
  lowPrice : Bool
  highPrice : Bool
  deriving DecidableEq, Repr

/-- The notification policy's mutable state in `main.ts` (lines 21–22):
`lastNotifiedLevel` and `lastRecommendationStatus`, both starting at the
`null` sentinel, modelled as `none`. -/
structure NotifState where
  lastNotifiedLevel : Option Level := none
  lastRecommendationStatus : Option Status := none
  deriving DecidableEq, Repr

/-- One emitted desktop notification (`showNotification(title, body)`). -/
structure SentNotification where
  title : String
  body : String
  deriving DecidableEq, Repr

/-- The raw-price fallback of `sendContextualNotification`
(main.ts lines 276–291). -/
def sendPriceNotification (settings : NotifSettings) (price : PriceData)
    (sun : Option SunForecast) (st : NotifState) : NotifState × List SentNotification :=
  if st.lastNotifiedLevel ≠ some price.level then
    let sent :=
      if price.level = Level.low ∧ st.lastNotifiedLevel ≠ none ∧ settings.lowPrice = true then
        let sunInfo :=
          match sun with
          | some s =>
            if s.isDaytime ∧ s.generationPotential ≠ Potential.low then " + solar available"
            else ""
          | none => ""
        [{ title := "⚡ Low Electricity Price!",
           body := "Current price: " ++ toString price.priceCZK ++ " Kč/MWh" ++ sunInfo }]
      else if price.level = Level.high ∧ st.lastNotifiedLevel ≠ none ∧ settings.highPrice = true then
        [{ title := "⚡ High Electricity Price",
           body := "Current price: " ++ toString price.priceCZK
             ++ " Kč/MWh - Consider reducing usage" }]
      else []
    ({ st with lastNotifiedLevel := some price.level }, sent)
  else (st, [])

/-- `sendContextualNotification` (main.ts lines 251–292): state transition of
the notification policy for one recomputation, returning the new state and the
notifications emitted. -/
def sendContextualNotification (settings : NotifSettings) (price : PriceData)
    (recState : Option RecommendationState) (sun : Option SunForecast)
    (hoursUntilSunset : Nat) (st : NotifState) : NotifState × List SentNotification :=
  if settings.lowPrice = false ∧ settings.highPrice = false then (st, [])
  else
    match recState with
    | some rs =>
      if st.lastRecommendationStatus ≠ some rs.overallStatus then
        let sent :=
          if rs.overallStatus = Status.go ∧ st.lastRecommendationStatus ≠ none then
            match getNotificationMessage (some rs) sun hoursUntilSunset with
            | some m =>
              if settings.lowPrice = true then
                [{ title := "⚡ Good Time Now!", body := m }]
              else []
            | none => []
          else []
        ({ st with lastRecommendationStatus := some rs.overallStatus }, sent)
      else sendPriceNotification settings price sun st
    | none => sendPriceNotification settings price sun st

/-- One recomputation cycle's inputs as seen by the notification policy. -/
structure Observation where
  price : PriceData
  recState : RecommendationState
  sun : Option SunForecast
  hoursUntilSunset : Nat

/-- Run the notification policy over a sequence of recomputations, collecting
the notifications emitted at each step. -/
def notifRun (settings : NotifSettings) :
    NotifState → List Observation → List (List SentNotification)
  | _, [] => []
  | st, o :: os =>
    let res := sendContextualNotification settings o.price (some o.recState)
      o.sun o.hoursUntilSunset st
    res.2 :: notifRun settings res.1 os

/-- One `<Item>` of the OTE day-ahead feed after parsing
(`parseOTEResponse`, part_006 lines 1134–1158). -/
structure OTEPriceItem where
  date : String
  hour : Nat
  priceEur : ℚ
  deriving DecidableEq, Repr

/-- The `map` body of `fetchHourlyPrices`: one parsed item enriched with the
tier of its day's distribution and the rounded CZK conversion. -/
def toHourlyPrice (czkRate : ℚ) (dayPrices : List ℚ) (item : OTEPriceItem) : HourlyPrice :=
  let lv := calculateLevel item.priceEur dayPrices
  { hour := item.hour, priceEur := item.priceEur,
    priceCZK := (jsRound (item.priceEur * czkRate) : ℚ),
    level := lv.1, levelNum := lv.2 }

/-- One day's series as built by `fetchHourlyPrices`: enrich each item against
its own day's price distribution, then sort ascending by hour. -/
def buildDaySeries (czkRate : ℚ) (items : List OTEPriceItem) : List HourlyPrice :=
  let dayPrices := items.map (·.priceEur)
  List.insertionSort (fun a b => a.hour ≤ b.hour) (items.map (toHourlyPrice czkRate dayPrices))

/-- An HTTP-200 OTE response after `parseOTEResponse` together with the cached
CZK exchange rate.  `parseOTEResponse` (part_006 lines 1134–1158) is a regex
scan that never throws: a malformed body simply yields no `<Item>` matches,
i.e. `items = []`.  At the `fetchHourlyPrices` call site, `none` models a
thrown fetch error (unreachable feed or non-200 status, the `catch` path),
while a malformed-but-delivered body is `some` with an empty `items` list. -/
structure OTEResponse where
  today : String
  tomorrow : String
  items : List OTEPriceItem
  czkRate : ℚ
  deriving DecidableEq, Repr

/-- `PriceService.fetchHourlyPrices` (part_006 lines 1281–1340) as a state
transition on the cached series: returns the new cache and the value handed
back to the caller.  On a thrown fetch the `catch` branch logs and returns
`null`, leaving the cache untouched; any delivered body — including a
malformed one that parsed to zero items — goes through the success path,
which overwrites the cache with the freshly built (possibly empty) series. -/
def fetchHourlyPrices (cache : Option HourlyPrices) (response : Option OTEResponse) :
    Option HourlyPrices × Option HourlyPrices :=
  match response with
  | some resp =>
    let todayItems := resp.items.filter (fun it => it.date == resp.today)
    let tomorrowItems := resp.items.filter (fun it => it.date == resp.tomorrow)
    let hp : HourlyPrices :=
      { hoursToday := buildDaySeries resp.czkRate todayItems,
        hoursTomorrow := buildDaySeries resp.czkRate tomorrowItems }
    (some hp, some hp)
  | none => (cache, none)

/-- `PriceService.getHourlyPrices` (part_006 lines 1346–1348): accessor for the
cached series. -/
def getHourlyPrices (cache : Option HourlyPrices) : Option HourlyPrices := cache

/-- Coarse order on tiers used to state monotonicity (low before medium
before high; `unknown` is never produced by the classifier). -/
def tierOrd : Level → Nat
  | Level.low => 0
  | Level.medium => 1
  | Level.high => 2
  | Level.unknown => 3

/-! Concrete test fixtures used to exercise the definitions. -/

/-- An hour record at 10:00 costing 100 CZK. -/
def todayHour10 : HourlyPrice := ⟨10, 4, 100, Level.low, 1⟩

/-- An hour record at 11:00 costing 101 CZK. -/
def todayHour11 : HourlyPrice := ⟨11, 4, 101, Level.low, 2⟩

/-- A day with the single 100 CZK hour at 10:00, empty tomorrow. -/
def hpOneLow : HourlyPrices := ⟨[todayHour10], []⟩

/-- A day with two near-minimum hours at 10:00 and 11:00, empty tomorrow. -/
def hpTwoLow : HourlyPrices := ⟨[todayHour10, todayHour11], []⟩

/-- A day whose only hour costs exactly 0 CZK (daily minimum 0). -/
def hpZeroDay : HourlyPrices := ⟨[⟨10, 0, 0, Level.low, 24⟩], []⟩

/-- A day with two consecutive 0 CZK hours (a zero-minimum stability window). -/
def hpZeroPair : HourlyPrices :=
  ⟨[⟨10, 0, 0, Level.low, 24⟩, ⟨11, 0, 0, Level.low, 24⟩], []⟩

/-- A delivered HTTP-200 response whose body did not match the `<Item>` regex:
`parseOTEResponse` yields no items. -/
def malformedResponse : OTEResponse :=
  ⟨"2024-01-15", "2024-01-16", [], 253 / 10⟩

/-- A current price of `czk` CZK classified `low`. -/
def priceAt (czk : ℚ) : PriceData := ⟨czk, czk / 25, Level.low, 1⟩

/-- A sunny snapshot with 520 W/m² current irradiance, daytime. -/
def sunny520 : SunForecast := ⟨520, 10, [], "06:00", "18:00", Potential.medium, true⟩

/-- A sunny snapshot with 600 W/m² current irradiance, daytime. -/
def sunny600 : SunForecast := ⟨600, 0, [], "06:00", "18:00", Potential.high, true⟩

/-- Settings with low-price alerts on and high-price alerts off. -/
def settingsLowOn : NotifSettings := ⟨true, false⟩

/-- The loading-state recomputation (no price data yet): status `wait`. -/
def rsLoading : RecommendationState := getRecommendations none none none 0

/-- A recomputation at the daily minimum under high solar: status `go`. -/
def rsGo : RecommendationState :=
  getRecommendations (some (priceAt 100)) (some hpOneLow) (some sunny600) 10

/-- A recomputation 10% above the daily minimum, no sun data: status `okay`. -/
def rsOkay : RecommendationState :=
  getRecommendations (some (priceAt 110)) (some hpOneLow) none 10

/-- An observation presenting recommendation state `rs` with a fixed low price. -/
def obsWith (rs : RecommendationState) : Observation := ⟨priceAt 100, rs, none, 3⟩

/-! ## Theorems

Batteries marks the `Rat` field operations `@[irreducible]`; restoring their
default reducibility lets `decide` evaluate the embedded functions on the
concrete fixtures above. -/

attribute [local semireducible] Rat.mul Rat.add Rat.sub Rat.inv

/-- Claim C8: for every irradiance and cloud-cover input, the generation
potential is `high` iff irradiance > 600 and cloud cover < 30; else `medium`
iff irradiance > 200 or cloud cover < 60; else `low`. -/
theorem generationPotential_thresholds (irr cc : ℚ) :
    (calculateGenerationPotential irr cc = Potential.high ↔ 600 < irr ∧ cc < 30) ∧
    (calculateGenerationPotential irr cc = Potential.medium ↔
      ¬(600 < irr ∧ cc < 30) ∧ (200 < irr ∨ cc < 60)) ∧
    (calculateGenerationPotential irr cc = Potential.low ↔
      ¬(600 < irr ∧ cc < 30) ∧ ¬(200 < irr ∨ cc < 60)) := by
  unfold calculateGenerationPotential
  split_ifs with h1 h2 <;> simp_all

/-- Claim C7: for a positive daily minimum, `isNearLowestPrice` at tolerance
0.05 holds exactly when `price ≤ dailyMin × 1.05`; the boundary is inclusive
and any strictly greater price is rejected. -/
theorem isNearLowest_iff_le_boundary (dailyMin price : ℚ) (h : 0 < dailyMin) :
    isNearLowestPrice price dailyMin (5 / 100) = true ↔ price ≤ dailyMin * (21 / 20) := by
  unfold isNearLowestPrice
  rw [if_neg (ne_of_gt h)]
  constructor
  · intro hb
    have := of_decide_eq_true hb
    linarith
  · intro hb
    apply decide_eq_true
    linarith

/-- Witness for C7 at `dailyMin = 100`: price 105 (= 100 × 1.05) is
near-lowest, price 106 is not. -/
theorem isNearLowest_iff_le_boundary_witness :
    isNearLowestPrice 105 100 (5 / 100) = true ∧
    isNearLowestPrice 106 100 (5 / 100) ≠ true :=
  ⟨(isNearLowest_iff_le_boundary 100 105 (by norm_num)).mpr (by norm_num),
   fun hc => by
     have := (isNearLowest_iff_le_boundary 100 106 (by norm_num)).mp hc
     norm_num at this⟩

/-- Claim C9 (amended): the two failure modes of `fetchHourlyPrices` behave
differently.  On a thrown fetch (unreachable feed or non-200 status) the cache
is left unchanged, still served by `getHourlyPrices`, and the caller receives
`null` — not the previous cached series.  A malformed HTTP-200 body, however,
is not an error path: the regex parse yields zero items and the aggregator
overwrites the cache with an empty two-day series and returns it. -/
theorem fetchHourlyPrices_failure_modes :
    (∀ cache : Option HourlyPrices,
      fetchHourlyPrices cache none = (cache, none) ∧
      getHourlyPrices (fetchHourlyPrices cache none).1 = cache) ∧
    (∀ (cache : Option HourlyPrices) (resp : OTEResponse), resp.items = [] →
      fetchHourlyPrices cache (some resp) =
        (some { hoursToday := [], hoursTomorrow := [] },
         some { hoursToday := [], hoursTomorrow := [] })) := by
  refine ⟨fun cache => ⟨rfl, rfl⟩, fun cache resp h => ?_⟩
  simp [fetchHourlyPrices, h, buildDaySeries]

/-- Witness for C9 (amended): a thrown fetch against the one-hour cache keeps
it and returns `null`; a delivered malformed body wipes it. -/
theorem fetchHourlyPrices_failure_modes_witness :
    (fetchHourlyPrices (some hpOneLow) none = (some hpOneLow, none) ∧
      getHourlyPrices (fetchHourlyPrices (some hpOneLow) none).1 = some hpOneLow) ∧
    fetchHourlyPrices (some hpOneLow) (some malformedResponse) =
      (some { hoursToday := [], hoursTomorrow := [] },
       some { hoursToday := [], hoursTomorrow := [] }) :=
  ⟨fetchHourlyPrices_failure_modes.1 (some hpOneLow),
   fetchHourlyPrices_failure_modes.2 (some hpOneLow) malformedResponse rfl⟩

/-- Counterexample for C9 as stated: with a non-empty cache, a thrown fetch
hands `none` (not the previous cached series) back to the caller, and a
malformed-but-delivered body both mutates the stored series (replacing it
with an empty one) and returns something other than the previous series. -/
theorem fetch_failure_counterexample :
    ((fetchHourlyPrices (some hpOneLow) none).2 = none ∧
      (fetchHourlyPrices (some hpOneLow) none).2 ≠ some hpOneLow) ∧
    ((fetchHourlyPrices (some hpOneLow) (some malformedResponse)).1 ≠ some hpOneLow ∧
      (fetchHourlyPrices (some hpOneLow) (some malformedResponse)).2 ≠ some hpOneLow) := by
  decide

/-- Counterexample for C4 as stated: a single-sample day is ranked 24 and
tiered `high`, not rank 1 / tier `low`. -/
theorem singleSample_counterexample :
    calculateLevel 5 [5] = (Level.high, 24) ∧ calculateLevel 5 [5] ≠ (Level.low, 1) := by
  decide

/-- Claim C4 (amended): for a day whose price list contains exactly one sample,
the classifier assigns that hour rank 24 and tier `high` (the `× 24` scaling
maps the only position to the top of the 1–24 range). -/
theorem singleSample_rank24_high (p : ℚ) : calculateLevel p [p] = (Level.high, 24) := by
  have h : rankOf p [p] = 24 := by
    unfold rankOf
    simp [List.insertionSort, List.orderedInsert, findIndexGe]
  unfold calculateLevel
  simp [h, levelFromRank]

lemma findIndexGe_lt_length {x : ℚ} :
    ∀ {l : List ℚ} {i : Nat}, findIndexGe x l = some i → i < l.length := by
  intro l
  induction l with
  | nil => intro i h; simp [findIndexGe] at h
  | cons a t ih =>
    intro i h
    unfold findIndexGe at h
    split at h
    · cases h; simp
    · cases ht : findIndexGe x t with
      | none => rw [ht] at h; simp at h
      | some j =>
        rw [ht] at h
        simp only [Option.map_some'] at h
        cases h
        have := ih ht
        simp only [List.length_cons]
        omega

lemma findIndexGe_mono {p q : ℚ} (hpq : p ≤ q) :
    ∀ {l : List ℚ} {i : Nat}, findIndexGe q l = some i →
      ∃ j, j ≤ i ∧ findIndexGe p l = some j := by
  intro l
  induction l with
  | nil => intro i h; simp [findIndexGe] at h
  | cons a t ih =>
    intro i h
    unfold findIndexGe at h
    split at h
    · rename_i hqa
      cases h
      exact ⟨0, le_refl 0, by unfold findIndexGe; rw [if_pos (le_trans hpq hqa)]⟩
    · rename_i hqa
      cases ht : findIndexGe q t with
      | none => rw [ht] at h; simp at h
      | some i' =>
        rw [ht] at h
        simp only [Option.map_some'] at h
        cases h
        obtain ⟨j', hj', hfind⟩ := ih ht
        by_cases hpa : p ≤ a
        · exact ⟨0, Nat.zero_le _, by unfold findIndexGe; rw [if_pos hpa]⟩
        · exact ⟨j' + 1, by omega,
            by unfold findIndexGe; rw [if_neg hpa, hfind]; rfl⟩

lemma findIndexGe_none_mono {p q : ℚ} (hpq : p ≤ q) :
    ∀ {l : List ℚ}, findIndexGe p l = none → findIndexGe q l = none := by
  intro l
  induction l with
  | nil => intro _; rfl
  | cons a t ih =>
    intro h
    unfold findIndexGe at h ⊢
    split at h
    · exact absurd h (by simp)
    · rename_i hpa
      rw [if_neg (fun hqa => hpa (le_trans hpq hqa))]
      cases ht : findIndexGe p t with
      | none => rw [ih ht]; rfl
      | some j => rw [ht] at h; simp at h

lemma rank_clamp_le_24 {N pos : Nat} (hN : 0 < N) (hpos : pos < N) :
    max 1 (((pos + 1) * 24 + (N - 1)) / N) ≤ 24 := by
  have h24 : (pos + 1) * 24 ≤ N * 24 := Nat.mul_le_mul_right 24 (by omega)
  have hnum : (pos + 1) * 24 + (N - 1) < 25 * N := by omega
  have := (Nat.div_lt_iff_lt_mul hN).mpr hnum
  omega

lemma calculateLevel_fst (x : ℚ) (l : List ℚ) :
    (calculateLevel x l).1 = levelFromRank (calculateLevel x l).2 := by
  unfold calculateLevel
  split
  · rfl
  · rfl

lemma levelFromRank_mono {m n : Nat} (h : m ≤ n) :
    tierOrd (levelFromRank m) ≤ tierOrd (levelFromRank n) := by
  unfold levelFromRank
  split_ifs <;> simp_all [tierOrd] <;> omega

lemma sortedLength_pos {l : List ℚ} (hne : l ≠ []) :
    0 < (List.insertionSort (· ≤ ·) l).length := by
  rw [List.length_insertionSort]
  cases l with
  | nil => exact absurd rfl hne
  | cons a t => simp

lemma rankOf_bounds (x : ℚ) {l : List ℚ} (hne : l ≠ []) :
    1 ≤ rankOf x l ∧ rankOf x l ≤ 24 := by
  unfold rankOf
  cases hfind : findIndexGe x (List.insertionSort (· ≤ ·) l) with
  | none => simp
  | some pos =>
    have hpos := findIndexGe_lt_length hfind
    have hcl := rank_clamp_le_24 (sortedLength_pos hne) hpos
    simp only
    omega

lemma rankOf_mono {p q : ℚ} (hpq : p ≤ q) {l : List ℚ} (hne : l ≠ []) :
    rankOf p l ≤ rankOf q l := by
  unfold rankOf
  cases hq : findIndexGe q (List.insertionSort (· ≤ ·) l) with
  | none =>
    cases hp : findIndexGe p (List.insertionSort (· ≤ ·) l) with
    | none => exact le_refl _
    | some j =>
      have hj := findIndexGe_lt_length hp
      have hcl := rank_clamp_le_24 (sortedLength_pos hne) hj
      simp only
      omega
  | some i =>
    obtain ⟨j, hji, hp⟩ := findIndexGe_mono hpq hq
    simp only [hp]
    exact max_le_max (le_refl 1)
      (Nat.div_le_div_right (Nat.add_le_add_right (Nat.mul_le_mul_right 24 (by omega)) _))

lemma isEmpty_false_of_ne_nil {l : List ℚ} (hne : l ≠ []) : l.isEmpty = false := by
  cases l with
  | nil => exact absurd rfl hne
  | cons a t => rfl

lemma calculateLevel_rank_bounds (x : ℚ) {l : List ℚ} (hne : l ≠ []) :
    1 ≤ (calculateLevel x l).2 ∧ (calculateLevel x l).2 ≤ 24 := by
  unfold calculateLevel
  rw [isEmpty_false_of_ne_nil hne]
  simp only [Bool.false_eq_true, if_false]
  exact rankOf_bounds x hne

lemma calculateLevel_rank_mono {p q : ℚ} (hpq : p ≤ q) {l : List ℚ} (hne : l ≠ []) :
    (calculateLevel p l).2 ≤ (calculateLevel q l).2 := by
  unfold calculateLevel
  rw [isEmpty_false_of_ne_nil hne]
  simp only [Bool.false_eq_true, if_false]
  exact rankOf_mono hpq hne

/-- Claim C5 (amended): for every non-empty daily price set, ranks lie in the
fixed range 1–24 (not 1–N) and both rank and tier are monotone nondecreasing
with price, so no hour with a strictly lower price gets a strictly higher
tier; the ranks of an N-sample day are not in general a permutation of 1..N. -/
theorem rank_range_and_monotonicity (prices : List ℚ) (p q : ℚ)
    (hne : prices ≠ []) (hpq : p ≤ q) :
    1 ≤ (calculateLevel p prices).2 ∧ (calculateLevel p prices).2 ≤ 24 ∧
    (calculateLevel p prices).2 ≤ (calculateLevel q prices).2 ∧
    tierOrd (calculateLevel p prices).1 ≤ tierOrd (calculateLevel q prices).1 := by
  obtain ⟨h1, h2⟩ := calculateLevel_rank_bounds p hne
  have hmono := calculateLevel_rank_mono hpq hne
  refine ⟨h1, h2, hmono, ?_⟩
  rw [calculateLevel_fst, calculateLevel_fst]
  exact levelFromRank_mono hmono

/-- Witness for C5 (amended) on the two-sample day `[10, 20]`. -/
theorem rank_range_and_monotonicity_witness :
    1 ≤ (calculateLevel 10 [10, 20]).2 ∧ (calculateLevel 10 [10, 20]).2 ≤ 24 ∧
    (calculateLevel 10 [10, 20]).2 ≤ (calculateLevel 20 [10, 20]).2 ∧
    tierOrd (calculateLevel 10 [10, 20]).1 ≤ tierOrd (calculateLevel 20 [10, 20]).1 :=
  rank_range_and_monotonicity [10, 20] 10 20 (by decide) (by norm_num)

/-- Counterexample for C5 as stated: the two-sample day `[10, 20]` is ranked
`(12, 24)`, which is not a permutation of `1..2`, and its cheapest hour is
tiered `medium`, not `low`. -/
theorem rank_permutation_counterexample :
    (calculateLevel 10 [10, 20]).2 = 12 ∧ (calculateLevel 20 [10, 20]).2 = 24 ∧
    (calculateLevel 10 [10, 20]).1 = Level.medium ∧
    ¬ List.Perm [(calculateLevel 10 [10, 20]).2, (calculateLevel 20 [10, 20]).2] [1, 2] := by
  decide

/-- Claim C10: when the daily minimum is 0, `isNearLowestPrice` is false for
every price and tolerance, so neither near-lowest EV branch (and in particular
not the `good` branch containing the division by `dailyMin`) can fire: any EV
recommendation produced on such a day is the high-solar one. -/
theorem zero_dailyMin_no_near_lowest (p : PriceData) (avg : ℚ)
    (sun : Option SunForecast) (ch : Nat) (price tol : ℚ) :
    isNearLowestPrice price 0 tol = false ∧
    (∀ r, getEvChargingRecommendation p avg 0 sun ch = some r →
      r.quality = Quality.good ∧ r.reason = "High solar generation") := by
  have hflat : ∀ t : ℚ, isNearLowestPrice p.priceCZK 0 t = false := by
    intro t; unfold isNearLowestPrice; simp
  constructor
  · unfold isNearLowestPrice; simp
  · intro r hr
    unfold getEvChargingRecommendation at hr
    rw [hflat, hflat] at hr
    simp only [Bool.false_and, Bool.false_eq_true, if_false] at hr
    split at hr
    · cases hr; exact ⟨rfl, rfl⟩
    · simp at hr

/-- Witness for C10: on the zero-minimum day, a cheap price under 600 W/m²
solar yields exactly the high-solar `good` recommendation. -/
theorem zero_dailyMin_no_near_lowest_witness :
    isNearLowestPrice 50 0 (5 / 100) = false ∧
    ((getEvChargingRecommendation (priceAt 50) 100 0 (some sunny600) 10).map
        (fun r => r.reason)) = some "High solar generation" := by
  refine ⟨(zero_dailyMin_no_near_lowest (priceAt 50) 100 (some sunny600) 10 50 (5 / 100)).1, ?_⟩
  have h := (zero_dailyMin_no_near_lowest (priceAt 50) 100 (some sunny600) 10 50 (5 / 100)).2
  cases hev : getEvChargingRecommendation (priceAt 50) 100 0 (some sunny600) 10 with
  | none => exact absurd hev (by decide)
  | some r => rw [Option.map_some', (h r hev).2]

/-- Claim C6 (amended): every laundry recommendation, of any quality, requires
the price to be stable over the next 2 hours; the stability test collects the
records starting at the current hour (spilling into tomorrow), treats fewer
than two collected records as stable, treats a window whose minimum price is 0
as unstable (the JavaScript division yields `NaN`/`Infinity`, so `< 0.3` is
false), and otherwise holds iff `(max - min)/min < 0.3`. -/
theorem laundry_gated_by_stability (price : PriceData) (dailyAverage dailyMin : ℚ)
    (sun : Option SunForecast) (hp : HourlyPrices) (ch : Nat) :
    (∀ r, getLaundryRecommendation price dailyAverage dailyMin sun hp ch = some r →
      isPriceStable hp 2 ch = true) ∧
    ((stabilityWindow hp 2 ch).length < 2 → isPriceStable hp 2 ch = true) ∧
    (2 ≤ (stabilityWindow hp 2 ch).length →
      listMin ((stabilityWindow hp 2 ch).map (·.priceCZK)) = 0 →
      isPriceStable hp 2 ch = false) ∧
    (2 ≤ (stabilityWindow hp 2 ch).length →
      listMin ((stabilityWindow hp 2 ch).map (·.priceCZK)) ≠ 0 →
      (isPriceStable hp 2 ch = true ↔
        (listMax ((stabilityWindow hp 2 ch).map (·.priceCZK))
            - listMin ((stabilityWindow hp 2 ch).map (·.priceCZK)))
          / listMin ((stabilityWindow hp 2 ch).map (·.priceCZK)) < 3 / 10)) := by
  refine ⟨?_, ?_, ?_, ?_⟩
  · intro r hr
    cases hst : isPriceStable hp 2 ch with
    | true => rfl
    | false =>
      exfalso
      unfold getLaundryRecommendation at hr
      rw [hst] at hr
      simp only [Bool.and_false, Bool.false_eq_true, if_false] at hr
      exact Option.noConfusion hr
  · intro hlen
    unfold isPriceStable
    rw [if_pos hlen]
  · intro hlen h0
    unfold isPriceStable
    rw [if_neg (by omega), if_pos h0]
  · intro hlen h0
    unfold isPriceStable
    rw [if_neg (by omega), if_neg h0]
    exact decide_eq_true_iff

/-- Witness for C6 (amended): at a flat 100/100 CZK pair of hours the laundry
scorer fires `good`, the gate reports the window stable, and the nonzero-min
ratio characterisation holds; on the 0/0 CZK pair the window is unstable. -/
theorem laundry_gated_by_stability_witness :
    isPriceStable hpTwoLow 2 10 = true ∧
    (isPriceStable hpTwoLow 2 10 = true ↔
      (listMax ((stabilityWindow hpTwoLow 2 10).map (·.priceCZK))
          - listMin ((stabilityWindow hpTwoLow 2 10).map (·.priceCZK)))
        / listMin ((stabilityWindow hpTwoLow 2 10).map (·.priceCZK)) < 3 / 10) ∧
    isPriceStable hpZeroPair 2 10 = false :=
  ⟨(laundry_gated_by_stability (priceAt 100) 100 100 none hpTwoLow 10).1
      { activity := Activity.laundry, quality := Quality.good,
        reason := "Near lowest price", icon := "🧺" }
      (by decide),
   (laundry_gated_by_stability (priceAt 100) 100 100 none hpTwoLow 10).2.2.2
      (by decide) (by decide),
   (laundry_gated_by_stability (priceAt 0) 0 0 none hpZeroPair 10).2.2.1
      (by decide) (by decide)⟩

/-- Counterexample for C6's stability formula as stated: on a collected window
of two 0 CZK hours the bare ratio `(max - min)/min < 0.3` — read with total
division, `0/0 = 0` — is satisfied, yet the source's `isPriceStable` is false
there (JavaScript `0/0` is `NaN` and `NaN < 0.3` is false). -/
theorem stability_zero_min_counterexample :
    2 ≤ (stabilityWindow hpZeroPair 2 10).length ∧
    (listMax ((stabilityWindow hpZeroPair 2 10).map (·.priceCZK))
        - listMin ((stabilityWindow hpZeroPair 2 10).map (·.priceCZK)))
      / listMin ((stabilityWindow hpZeroPair 2 10).map (·.priceCZK)) < 3 / 10 ∧
    isPriceStable hpZeroPair 2 10 = false := by
  decide

/-- Counterexample for C3 as stated: a recomputation whose recommendation list
is non-empty still carries a `nextWindow` — the projection is computed
unconditionally, not only for empty recommendation sets. -/
theorem nextWindow_nonempty_counterexample :
    (getRecommendations (some (priceAt 100)) (some hpTwoLow) none 10).recommendations ≠ [] ∧
    (getRecommendations (some (priceAt 100)) (some hpTwoLow) none 10).nextWindow =
      some { time := "11:00", reason := "Price drops" } := by
  decide

/-- Claim C3 (amended): `nextWindow` is computed on every recomputation with
price data, regardless of whether the recommendation set is empty; the first
search returns the first of today's hours strictly after the current hour
whose price is within 15% of today's daily minimum, with reason "Price
drops". -/
theorem nextWindow_first_search (price : PriceData) (hp : HourlyPrices)
    (sun : Option SunForecast) (ch : Nat) :
    ((getRecommendations (some price) (some hp) sun ch).nextWindow =
      findNextGoodWindow hp sun (calculateDailyMin hp.hoursToday) ch) ∧
    (∀ h, hp.hoursToday.find?
        (fun x => ch < x.hour
          && isNearLowestPrice x.priceCZK (calculateDailyMin hp.hoursToday) (15 / 100)) = some h →
      findNextGoodWindow hp sun (calculateDailyMin hp.hoursToday) ch =
        some { time := fmtHour h.hour, reason := "Price drops" }) := by
  constructor
  · rfl
  · intro h hfind
    unfold findNextGoodWindow
    rw [hfind]

/-- Witness for C3 (amended): the two-hour day has its first qualifying hour
at 11:00, and the search returns it with reason "Price drops". -/
theorem nextWindow_first_search_witness :
    findNextGoodWindow hpTwoLow none (calculateDailyMin hpTwoLow.hoursToday) 10 =
      some { time := fmtHour 11, reason := "Price drops" } :=
  (nextWindow_first_search (priceAt 100) hpTwoLow none 10).2 todayHour11
    (by decide)

/-- Claim C1 (amended): whenever today's daily minimum is nonzero, the current
price is within 5% of it (`price ≤ dailyMin × 1.05`) and the current solar
irradiance exceeds 500 W/m², the engine's first recommendation is the EV
`excellent` one with reason "Lowest price + sunny". -/
theorem ev_excellent_nearMin_sunny (price : PriceData) (hp : HourlyPrices)
    (sun : SunForecast) (ch : Nat)
    (hmin : calculateDailyMin hp.hoursToday ≠ 0)
    (hprice : price.priceCZK ≤ calculateDailyMin hp.hoursToday * (21 / 20))
    (hsun : 500 < sun.currentIrradiance) :
    (getRecommendations (some price) (some hp) (some sun) ch).recommendations.head? =
      some { activity := Activity.ev_charging, quality := Quality.excellent,
             reason := "Lowest price + sunny", icon := "🚗",
             windowEnd := estimateWindowEnd (some sun) ch } := by
  have hvery : isNearLowestPrice price.priceCZK (calculateDailyMin hp.hoursToday) (5 / 100)
      = true := by
    unfold isNearLowestPrice
    rw [if_neg hmin]
    apply decide_eq_true
    calc price.priceCZK ≤ calculateDailyMin hp.hoursToday * (21 / 20) := hprice
      _ = calculateDailyMin hp.hoursToday * (1 + 5 / 100) := by ring
  have hev : getEvChargingRecommendation price (calculateDailyAverage hp.hoursToday)
      (calculateDailyMin hp.hoursToday) (some sun) ch =
      some { activity := Activity.ev_charging, quality := Quality.excellent,
             reason := "Lowest price + sunny", icon := "🚗",
             windowEnd := estimateWindowEnd (some sun) ch } := by
    unfold getEvChargingRecommendation
    rw [hvery]
    simp [hsun]
  show ((getEvChargingRecommendation price (calculateDailyAverage hp.hoursToday)
      (calculateDailyMin hp.hoursToday) (some sun) ch).toList
    ++ (getLaundryRecommendation price (calculateDailyAverage hp.hoursToday)
      (calculateDailyMin hp.hoursToday) (some sun) hp ch).toList).head? = _
  rw [hev]
  rfl

/-- Witness for C1 (amended), matching spec Scenario C: price 104 on a
100-minimum day under 520 W/m² irradiance yields the EV `excellent`
recommendation with reason "Lowest price + sunny". -/
theorem ev_excellent_nearMin_sunny_witness :
    List.head? (getRecommendations (some (priceAt 104)) (some hpOneLow)
        (some sunny520) 10).recommendations =
      some { activity := Activity.ev_charging, quality := Quality.excellent,
             reason := "Lowest price + sunny", icon := "🚗", windowEnd := some "18:00" } :=
  ev_excellent_nearMin_sunny (priceAt 104) hpOneLow sunny520 10
    (by decide) (by decide)
    (by decide)

/-- Counterexample for C1 as stated: on a day whose minimum price is 0 the
hypotheses hold (`0 ≤ 0 × 1.05`, irradiance 600 > 500) yet no recommendation
at all is produced, because `isNearLowestPrice` rejects a zero minimum. -/
theorem ev_excellent_zeroMin_counterexample :
    (priceAt 0).priceCZK ≤ calculateDailyMin hpZeroDay.hoursToday * (21 / 20) ∧
    500 < sunny600.currentIrradiance ∧
    (getRecommendations (some (priceAt 0)) (some hpZeroDay)
      (some sunny600) 10).recommendations = [] := by
  decide

lemma ev_shape {price : PriceData} {avg mn : ℚ} {sun : Option SunForecast} {ch : Nat}
    {r : Recommendation}
    (h : getEvChargingRecommendation price avg mn sun ch = some r) :
    r.activity = Activity.ev_charging ∧
      (r.quality = Quality.excellent ∨ r.quality = Quality.good) := by
  simp only [getEvChargingRecommendation] at h
  split at h
  · obtain rfl := (Option.some.inj h).symm
    exact ⟨rfl, Or.inl rfl⟩
  · split at h
    · obtain rfl := (Option.some.inj h).symm
      exact ⟨rfl, Or.inr rfl⟩
    · split at h
      · obtain rfl := (Option.some.inj h).symm
        exact ⟨rfl, Or.inr rfl⟩
      · exact absurd h (by simp)

lemma laundry_shape {price : PriceData} {avg mn : ℚ} {sun : Option SunForecast}
    {hp : HourlyPrices} {ch : Nat} {r : Recommendation}
    (h : getLaundryRecommendation price avg mn sun hp ch = some r) :
    r.activity = Activity.laundry ∧
      (r.quality = Quality.excellent ∨ r.quality = Quality.good) := by
  simp only [getLaundryRecommendation] at h
  split at h
  · obtain rfl := (Option.some.inj h).symm
    exact ⟨rfl, Or.inl rfl⟩
  · split at h
    · obtain rfl := (Option.some.inj h).symm
      exact ⟨rfl, Or.inr rfl⟩
    · split at h
      · obtain rfl := (Option.some.inj h).symm
        exact ⟨rfl, Or.inr rfl⟩
      · exact absurd h (by simp)

lemma recs_eq (p : PriceData) (hp : HourlyPrices) (s : Option SunForecast) (ch : Nat) :
    (getRecommendations (some p) (some hp) s ch).recommendations =
      (getEvChargingRecommendation p (calculateDailyAverage hp.hoursToday)
          (calculateDailyMin hp.hoursToday) s ch).toList ++
      (getLaundryRecommendation p (calculateDailyAverage hp.hoursToday)
          (calculateDailyMin hp.hoursToday) s hp ch).toList := rfl

lemma message_isSome_of_go (p : Option PriceData) (hp : Option HourlyPrices)
    (s : Option SunForecast) (ch : Nat)
    (hgo : (getRecommendations p hp s ch).overallStatus = Status.go)
    (sun' : Option SunForecast) (hus : Nat) :
    (getNotificationMessage (some (getRecommendations p hp s ch)) sun' hus).isSome = true := by
  cases p with
  | none => exact absurd hgo (by cases hp <;> simp [getRecommendations])
  | some pv =>
  cases hp with
  | none => exact absurd hgo (by simp [getRecommendations])
  | some hpv =>
  cases hev : getEvChargingRecommendation pv (calculateDailyAverage hpv.hoursToday)
      (calculateDailyMin hpv.hoursToday) s ch with
  | some e =>
    obtain ⟨hact, hq⟩ := ev_shape hev
    have hrec : (getRecommendations (some pv) (some hpv) s ch).recommendations =
        e :: (getLaundryRecommendation pv (calculateDailyAverage hpv.hoursToday)
          (calculateDailyMin hpv.hoursToday) s hpv ch).toList := by
      rw [recs_eq, hev]; rfl
    simp only [getNotificationMessage, hrec, List.isEmpty_cons]
    rcases hq with h | h <;> simp [h, hact]
  | none =>
    cases hla : getLaundryRecommendation pv (calculateDailyAverage hpv.hoursToday)
        (calculateDailyMin hpv.hoursToday) s hpv ch with
    | none =>
      exfalso
      have hw : (getRecommendations (some pv) (some hpv) s ch).overallStatus = Status.wait := by
        simp [getRecommendations, hev, hla]
      rw [hw] at hgo
      exact Status.noConfusion hgo
    | some l =>
      obtain ⟨hactl, hql⟩ := laundry_shape hla
      have hrec : (getRecommendations (some pv) (some hpv) s ch).recommendations = [l] := by
        rw [recs_eq, hev, hla]; rfl
      have hlex : l.quality = Quality.excellent := by
        rcases hql with h | h
        · exact h
        · exfalso
          have hok : (getRecommendations (some pv) (some hpv) s ch).overallStatus
              = Status.okay := by
            simp [getRecommendations, hev, hla, h]
          rw [hok] at hgo
          exact Status.noConfusion hgo
      simp only [getNotificationMessage, hrec, List.isEmpty_cons]
      simp [hactl, hlex]

lemma notifGate {settings : NotifSettings} (hlow : settings.lowPrice = true) :
    ¬(settings.lowPrice = false ∧ settings.highPrice = false) := by
  rintro ⟨h1, -⟩
  rw [hlow] at h1
  exact Bool.noConfusion h1

lemma spn_unset_level (settings : NotifSettings) (price : PriceData)
    (sun : Option SunForecast) (st : NotifState) (hnone : st.lastNotifiedLevel = none) :
    sendPriceNotification settings price sun st =
      ({ st with lastNotifiedLevel := some price.level }, []) := by
  unfold sendPriceNotification
  rw [if_pos (by rw [hnone]; exact fun h => Option.noConfusion h)]
  rw [if_neg (by rw [hnone]; rintro ⟨-, h, -⟩; exact h rfl)]
  rw [if_neg (by rw [hnone]; rintro ⟨-, h, -⟩; exact h rfl)]

lemma spn_same_level (settings : NotifSettings) (price : PriceData)
    (sun : Option SunForecast) (st : NotifState)
    (heq : st.lastNotifiedLevel = some price.level) :
    sendPriceNotification settings price sun st = (st, []) := by
  unfold sendPriceNotification
  rw [if_neg (by rw [heq]; exact fun h => h rfl)]

lemma scn_changed_no_fire (settings : NotifSettings) (hlow : settings.lowPrice = true)
    (price : PriceData) (rs : RecommendationState) (sun : Option SunForecast) (hus : Nat)
    (st : NotifState) (hne : st.lastRecommendationStatus ≠ some rs.overallStatus)
    (hng : rs.overallStatus ≠ Status.go ∨ st.lastRecommendationStatus = none) :
    sendContextualNotification settings price (some rs) sun hus st =
      ({ st with lastRecommendationStatus := some rs.overallStatus }, []) := by
  simp only [sendContextualNotification]
  rw [if_neg (notifGate hlow), if_pos hne,
    if_neg (by
      rintro ⟨h1, h2⟩
      rcases hng with h | h
      · exact h h1
      · exact h2 h)]

lemma scn_go_fires (settings : NotifSettings) (hlow : settings.lowPrice = true)
    (price : PriceData) (rs : RecommendationState) (sun : Option SunForecast) (hus : Nat)
    (st : NotifState) (m : String)
    (hne : st.lastRecommendationStatus ≠ some rs.overallStatus)
    (hgo : rs.overallStatus = Status.go)
    (hprev : st.lastRecommendationStatus ≠ none)
    (hm : getNotificationMessage (some rs) sun hus = some m) :
    sendContextualNotification settings price (some rs) sun hus st =
      ({ st with lastRecommendationStatus := some rs.overallStatus },
       [{ title := "⚡ Good Time Now!", body := m }]) := by
  simp only [sendContextualNotification]
  rw [if_neg (notifGate hlow), if_pos hne, if_pos ⟨hgo, hprev⟩, hm]
  simp [hlow]

lemma scn_unchanged (settings : NotifSettings) (hlow : settings.lowPrice = true)
    (price : PriceData) (rs : RecommendationState) (sun : Option SunForecast) (hus : Nat)
    (st : NotifState) (heq : st.lastRecommendationStatus = some rs.overallStatus) :
    sendContextualNotification settings price (some rs) sun hus st =
      sendPriceNotification settings price sun st := by
  simp only [sendContextualNotification]
  rw [if_neg (notifGate hlow), if_neg (by rw [heq]; exact fun h => h rfl)]

/-- Claim C2: over five recomputations whose statuses are
`wait, wait, go, go, okay`, starting from the unset sentinel, with low-price
notifications enabled and the raw price tier unchanged throughout, exactly
one notification fires — at the `wait→go` transition (third step); none fires
at the first observation, at `go→go`, or at `go→okay`. -/
theorem edge_trigger_exactly_one (settings : NotifSettings)
    (hlow : settings.lowPrice = true) (o1 o2 o3 o4 o5 : Observation)
    (hs1 : o1.recState.overallStatus = Status.wait)
    (hs2 : o2.recState.overallStatus = Status.wait)
    (hs3 : o3.recState.overallStatus = Status.go)
    (hs4 : o4.recState.overallStatus = Status.go)
    (hs5 : o5.recState.overallStatus = Status.okay)
    (hl2 : o2.price.level = o1.price.level)
    (_hl3 : o3.price.level = o1.price.level)
    (hl4 : o4.price.level = o1.price.level)
    (_hl5 : o5.price.level = o1.price.level)
    (h3 : ∃ p hp s c, o3.recState = getRecommendations p hp s c) :
    (notifRun settings ⟨none, none⟩ [o1, o2, o3, o4, o5]).map List.length =
      [0, 0, 1, 0, 0] := by
  obtain ⟨p3, hp3, s3, c3, hrec3⟩ := h3
  have hmsg : (getNotificationMessage (some o3.recState) o3.sun o3.hoursUntilSunset).isSome
      = true := by
    rw [hrec3]
    exact message_isSome_of_go p3 hp3 s3 c3 (hrec3 ▸ hs3) o3.sun o3.hoursUntilSunset
  obtain ⟨m, hm⟩ := Option.isSome_iff_exists.mp hmsg
  have e1 : sendContextualNotification settings o1.price (some o1.recState) o1.sun
      o1.hoursUntilSunset ⟨none, none⟩ = (⟨none, some Status.wait⟩, []) := by
    have h := scn_changed_no_fire settings hlow o1.price o1.recState o1.sun
      o1.hoursUntilSunset ⟨none, none⟩ (by simp) (Or.inr rfl)
    rw [hs1] at h
    exact h
  have e2 : sendContextualNotification settings o2.price (some o2.recState) o2.sun
      o2.hoursUntilSunset ⟨none, some Status.wait⟩ =
      (⟨some o2.price.level, some Status.wait⟩, []) := by
    rw [scn_unchanged settings hlow o2.price o2.recState o2.sun o2.hoursUntilSunset
      ⟨none, some Status.wait⟩ (by rw [hs2])]
    exact spn_unset_level settings o2.price o2.sun ⟨none, some Status.wait⟩ rfl
  have e3 : sendContextualNotification settings o3.price (some o3.recState) o3.sun
      o3.hoursUntilSunset ⟨some o2.price.level, some Status.wait⟩ =
      (⟨some o2.price.level, some Status.go⟩,
       [{ title := "⚡ Good Time Now!", body := m }]) := by
    have h := scn_go_fires settings hlow o3.price o3.recState o3.sun o3.hoursUntilSunset
      ⟨some o2.price.level, some Status.wait⟩ m
      (by rw [hs3]; exact fun h => Status.noConfusion (Option.some.inj h))
      hs3 (by exact fun h => Option.noConfusion h) hm
    rw [hs3] at h
    exact h
  have e4 : sendContextualNotification settings o4.price (some o4.recState) o4.sun
      o4.hoursUntilSunset ⟨some o2.price.level, some Status.go⟩ =
      (⟨some o2.price.level, some Status.go⟩, []) := by
    rw [scn_unchanged settings hlow o4.price o4.recState o4.sun o4.hoursUntilSunset
      ⟨some o2.price.level, some Status.go⟩ (by rw [hs4])]
    exact spn_same_level settings o4.price o4.sun ⟨some o2.price.level, some Status.go⟩
      (by rw [hl4, ← hl2])
  have e5 : sendContextualNotification settings o5.price (some o5.recState) o5.sun
      o5.hoursUntilSunset ⟨some o2.price.level, some Status.go⟩ =
      (⟨some o2.price.level, some Status.okay⟩, []) := by
    have h := scn_changed_no_fire settings hlow o5.price o5.recState o5.sun
      o5.hoursUntilSunset ⟨some o2.price.level, some Status.go⟩
      (by rw [hs5]; exact fun h => Status.noConfusion (Option.some.inj h))
      (Or.inl (by rw [hs5]; exact fun h => Status.noConfusion h))
    rw [hs5] at h
    exact h
  simp only [notifRun, e1, e2, e3, e4, e5, List.map_cons, List.map_nil,
    List.length_nil, List.length_cons]

/-- Witness for C2: the concrete trace `loading, loading, go, go, okay` with
low-price alerts on fires exactly one notification, at the third step. -/
theorem edge_trigger_exactly_one_witness :
    (notifRun settingsLowOn ⟨none, none⟩
      [obsWith rsLoading, obsWith rsLoading, obsWith rsGo, obsWith rsGo,
       obsWith rsOkay]).map List.length = [0, 0, 1, 0, 0] :=
  edge_trigger_exactly_one settingsLowOn rfl _ _ _ _ _
    (by decide) (by decide) (by decide) (by decide) (by decide)
    rfl rfl rfl rfl
    ⟨some (priceAt 100), some hpOneLow, some sunny600, 10, rfl⟩

end SpotMonitor
